import Mathlib

/-!
# Verification of the rutie-serde core (shallow embedding)

This file embeds the core of the `rutie-serde` crate — a bidirectional
converter between the serde data model and a dynamic Ruby object graph —
and proves properties of it.

The embedding mirrors the source files:

* `src/error.rs`  — `ErrorKind`, `Error`, `chain_context`, `describe_context`,
  and the `ResultExt::chain_context` combinator on `Result`.
* `src/de.rs`     — `Deserializer` with its primitive decode methods, and the
  access cursors `SeqAccess`, `HashAccess`, `ObjectAccess`, `EnumAccess`,
  `VariantAccess`.
* `src/ser.rs`    — `Serializer` primitive methods, the enum-variant methods,
  `MapSerializer`, and the unimplemented tuple/struct-variant builders.

Ruby objects are modelled by the inductive `RValue`.  The reflective host
interface (`protect_send`) is modelled by `rubySend`, covering exactly the
methods the crate dispatches (`to_s`, `length`, `keys`, `values`, `first`,
`[]`, `fetch`, and duck-typed field accessors on plain objects).  Visitor
calls are reified as `VisitCall`: a deserialize method is modelled as the
visitor invocation it performs (which `visit_*` method, with which argument);
the serde-side visitor logic itself is outside this crate.  Rust panics
(`unimplemented!`, out-of-bounds indexing) are modelled by the `ROut.panic`
outcome, distinct from returned `Error`s.
-/

set_option autoImplicit false
set_option linter.unusedVariables false

namespace RutieSerde

/-- `ErrorKind` from `src/error.rs`: a plain message, a wrapped Ruby
exception (its rendering abstracted to a string), or a named unimplemented
feature. -/
inductive ErrorKind where
  | Message : String → ErrorKind
  | RutieException : String → ErrorKind
  | NotImplemented : String → ErrorKind
  deriving DecidableEq, Repr

/-- `Error` from `src/error.rs`: one kind plus an ordered list of context
strings (`context: Vec<String>`). -/
structure Error where
  kind : ErrorKind
  context : List String
  deriving DecidableEq, Repr

/-- `impl From<ErrorKind> for Error`: wraps a kind with an empty context. -/
def Error.ofKind (k : ErrorKind) : Error := ⟨k, []⟩

/-- `impl From<&str> for Error`: a `Message` error with empty context. -/
def Error.ofStr (s : String) : Error := Error.ofKind (.Message s)

/-- `Error::chain_context` (src/error.rs): pushes one context string onto the
end of the context vector. The string is computed lazily in Rust; laziness is
unobservable here. -/
def Error.chain_context (e : Error) (s : String) : Error :=
  { e with context := e.context ++ [s] }

/-- `Vec::join("\n - ")` used by `Error::describe_context`. -/
def joinDash : List String → String
  | [] => ""
  | [x] => x
  | x :: xs => x ++ "\n - " ++ joinDash xs

/-- `Error::describe_context` (src/error.rs): empty string for no context,
otherwise a header followed by the context strings in vector order. -/
def Error.describe_context (e : Error) : String :=
  if e.context.isEmpty then "" else "\nContext from Rust:\n - " ++ joinDash e.context

/-- `pub type Result<T> = std::result::Result<T, Error>` (src/error.rs). -/
abbrev Result (α : Type) : Type := Except Error α

/-- `ResultExt::chain_context for Result<T>` (src/error.rs): leaves `Ok`
untouched, chains context onto an `Err`. -/
def resultChainContext {α : Type} (r : Result α) (s : String) : Result α :=
  match r with
  | .ok a => .ok a
  | .error e => .error (e.chain_context s)

/-- Discriminator: is this `Result` an `Ok`? -/
def resIsOk {α : Type} : Result α → Bool
  | .ok _ => true
  | .error _ => false

/-- The kind of the error carried by a `Result`, if any. -/
def resErrKind {α : Type} : Result α → Option ErrorKind
  | .ok _ => none
  | .error e => some e.kind

/-- The model of a Ruby object: the primitive classes the crate manipulates,
arrays, hashes (insertion-ordered key/value lists), and plain objects given by
a class name and a method table of zero-argument accessor results. -/
inductive RValue where
  | nil : RValue
  | bool : Bool → RValue
  | fixnum : Int → RValue
  | float : Rat → RValue
  | str : String → RValue
  | sym : String → RValue
  | array : List RValue → RValue
  | hash : List (RValue × RValue) → RValue
  | obj : String → List (String × RValue) → RValue

mutual

/-- Ruby object equality (`==`/`eql?`) on the modelled values, used for hash
key lookup and storage. -/
def RValue.beq : RValue → RValue → Bool
  | .nil, .nil => true
  | .bool a, .bool b => a == b
  | .fixnum a, .fixnum b => a == b
  | .float a, .float b => a == b
  | .str a, .str b => a == b
  | .sym a, .sym b => a == b
  | .array a, .array b => RValue.beqList a b
  | .hash a, .hash b => RValue.beqPairs a b
  | .obj c1 m1, .obj c2 m2 => c1 == c2 && RValue.beqFields m1 m2
  | _, _ => false

/-- Elementwise equality of Ruby arrays. -/
def RValue.beqList : List RValue → List RValue → Bool
  | [], [] => true
  | x :: t1, y :: t2 => RValue.beq x y && RValue.beqList t1 t2
  | _, _ => false

/-- Entrywise equality of Ruby hashes. -/
def RValue.beqPairs : List (RValue × RValue) → List (RValue × RValue) → Bool
  | [], [] => true
  | (k1, v1) :: t1, (k2, v2) :: t2 =>
    RValue.beq k1 k2 && RValue.beq v1 v2 && RValue.beqPairs t1 t2
  | _, _ => false

/-- Entrywise equality of object method tables. -/
def RValue.beqFields : List (String × RValue) → List (String × RValue) → Bool
  | [], [] => true
  | (k1, v1) :: t1, (k2, v2) :: t2 =>
    k1 == k2 && RValue.beq v1 v2 && RValue.beqFields t1 t2
  | _, _ => false

end

/-- The runtime class name of an object, as `object_class_name` (src/de.rs)
reads it via `class.name`. -/
def classNameOf : RValue → String
  | .nil => "NilClass"
  | .bool true => "TrueClass"
  | .bool false => "FalseClass"
  | .fixnum _ => "Integer"
  | .float _ => "Float"
  | .str _ => "String"
  | .sym _ => "Symbol"
  | .array _ => "Array"
  | .hash _ => "Hash"
  | .obj c _ => c

/-- Ruby `to_s` on the modelled values.  Container/object renderings are
simplified (no claim depends on them); primitives follow Ruby. -/
def rubyToS : RValue → String
  | .nil => ""
  | .bool true => "true"
  | .bool false => "false"
  | .fixnum n => toString n
  | .float q => toString q
  | .str s => s
  | .sym s => s
  | .array _ => "Array"
  | .hash _ => "Hash"
  | .obj c _ => "#<" ++ c ++ ">"

/-- A debug rendering standing in for Rust `{:?}` on `AnyObject`, used only
inside context strings.  Simplified for containers; no claim depends on its
exact text. -/
def rubyInspect : RValue → String
  | .nil => "nil"
  | .bool true => "true"
  | .bool false => "false"
  | .fixnum n => toString n
  | .float q => toString q
  | .str s => "\"" ++ s ++ "\""
  | .sym s => ":" ++ s
  | .array _ => "#<Array>"
  | .hash _ => "#<Hash>"
  | .obj c _ => "#<" ++ c ++ ">"

/-- First value bound to an equal key in an insertion-ordered hash. -/
def hashLookup : List (RValue × RValue) → RValue → Option RValue
  | [], _ => none
  | (k2, v) :: t, k => if RValue.beq k2 k then some v else hashLookup t k

/-- Ruby `Hash#store`: replaces the value at an existing equal key (keeping
its position), appends a new entry otherwise. -/
def hashStore : List (RValue × RValue) → RValue → RValue → List (RValue × RValue)
  | [], k, v => [(k, v)]
  | (k2, v2) :: t, k, v =>
    if RValue.beq k2 k then (k2, v) :: t else (k2, v2) :: hashStore t k v

/-- The reflective dispatch interface (`protect_send` / `protect_public_send`)
restricted to the methods this crate sends.  An unknown method on a receiver
raises, which surfaces as a `RutieException` error.  Ruby negative-index array
access is not modelled (the cursors only send non-negative indices). -/
def rubySend (recv : RValue) (method : String) (args : List RValue) : Result RValue :=
  match method, recv, args with
  | "to_s", v, [] => .ok (.str (rubyToS v))
  | "length", .array xs, [] => .ok (.fixnum (xs.length : Int))
  | "length", .hash ps, [] => .ok (.fixnum (ps.length : Int))
  | "length", .str s, [] => .ok (.fixnum (s.length : Int))
  | "keys", .hash ps, [] => .ok (.array (ps.map Prod.fst))
  | "values", .hash ps, [] => .ok (.array (ps.map Prod.snd))
  | "first", .array xs, [] => .ok (xs.headD .nil)
  | "[]", .array xs, [.fixnum i] =>
    .ok (if h : i.toNat < xs.length then xs.get ⟨i.toNat, h⟩ else .nil)
  | "fetch", .hash ps, [k] =>
    match hashLookup ps k with
    | some v => .ok v
    | none => .error (Error.ofKind (.RutieException "KeyError"))
  | m, .obj _ methods, [] =>
    match methods.lookup m with
    | some v => .ok v
    | none => .error (Error.ofKind (.RutieException ("NoMethodError: " ++ m)))
  | m, _, _ => .error (Error.ofKind (.RutieException ("NoMethodError: " ++ m)))

/-- An operation outcome that distinguishes a Rust panic (from
`unimplemented!` or out-of-bounds slice indexing) from a returned error. -/
inductive ROut (α : Type) where
  | ok : α → ROut α
  | err : Error → ROut α
  | panic : String → ROut α

/-- Inclusion of error-returning results into panic-aware outcomes. -/
def liftR {α : Type} : Result α → ROut α
  | .ok a => .ok a
  | .error e => .err e

/-- Discriminator: is this outcome a panic? -/
def ROut.isPanicB {α : Type} : ROut α → Bool
  | .panic _ => true
  | _ => false

/-- Discriminator: is this outcome a returned error? -/
def ROut.isErrB {α : Type} : ROut α → Bool
  | .err _ => true
  | _ => false

/-- `'s'` quoting used by the `try_convert_to!` context message. -/
def quoted (s : String) : String := "\x27" ++ s ++ "\x27"

/-- `rutie::AnyObject::try_convert_to::<Boolean>` — a `TypeError` exception
unless the receiver is a boolean. -/
def tryConvertBoolean : RValue → Result Bool
  | .bool b => .ok b
  | _ => .error (Error.ofKind (.RutieException "TypeError"))

/-- `try_convert_to::<Fixnum>` (then `to_i64`). -/
def tryConvertFixnum : RValue → Result Int
  | .fixnum n => .ok n
  | _ => .error (Error.ofKind (.RutieException "TypeError"))

/-- `try_convert_to::<Float>` (then `to_f64`). -/
def tryConvertFloat : RValue → Result Rat
  | .float q => .ok q
  | _ => .error (Error.ofKind (.RutieException "TypeError"))

/-- `try_convert_to::<RString>` (then `to_string`). -/
def tryConvertRString : RValue → Result String
  | .str s => .ok s
  | _ => .error (Error.ofKind (.RutieException "TypeError"))

/-- `try_convert_to::<Array>`. -/
def tryConvertArray : RValue → Result (List RValue)
  | .array xs => .ok xs
  | _ => .error (Error.ofKind (.RutieException "TypeError"))

/-- The `try_convert_to!` macro of src/de.rs for `Boolean`: the raw
conversion, with the failure wrapped in a
`When deserializing '<class>' as <type>` context. -/
def tryConvertBooleanCtx (v : RValue) : Result Bool :=
  resultChainContext (tryConvertBoolean v)
    ("When deserializing " ++ quoted (classNameOf v) ++ " as Boolean")

/-- The `try_convert_to!` macro for `Fixnum`. -/
def tryConvertFixnumCtx (v : RValue) : Result Int :=
  resultChainContext (tryConvertFixnum v)
    ("When deserializing " ++ quoted (classNameOf v) ++ " as Fixnum")

/-- The `try_convert_to!` macro for `RString`. -/
def tryConvertRStringCtx (v : RValue) : Result String :=
  resultChainContext (tryConvertRString v)
    ("When deserializing " ++ quoted (classNameOf v) ++ " as RString")

/-- `Deserializer` (src/de.rs): wraps exactly one host object reference. -/
structure Deserializer where
  object : RValue

/-- `Deserializer::new`. -/
def Deserializer.new (object : RValue) : Deserializer := ⟨object⟩

/-- `Deserializer::protect_send`: dispatch on the wrapped object. -/
def Deserializer.protect_send (d : Deserializer) (method : String)
    (args : List RValue) : Result RValue :=
  rubySend d.object method args

/-- Rust `as u32` on an `i64`: two's-complement truncation to 32 bits,
read as an unsigned value. -/
def i64AsU32 (n : Int) : Nat := (n % 4294967296).toNat

/-- Rust `as u64` on an `i64`: two's-complement reinterpretation. -/
def i64AsU64 (n : Int) : Nat := (n % 18446744073709551616).toNat

/-- Rust `as i64` on a `u64`: two's-complement reinterpretation. -/
def u64AsI64 (v : Nat) : Int :=
  if v < 9223372036854775808 then (v : Int) else (v : Int) - 18446744073709551616

/-- The visitor invocation a deserialize method performs: which `visit_*`
method of the serde visitor is called, with which argument. -/
inductive VisitCall where
  | vbool : Bool → VisitCall
  | vi64 : Int → VisitCall
  | vu32 : Nat → VisitCall
  | vu64 : Nat → VisitCall
  | vf64 : Rat → VisitCall
  | vstring : String → VisitCall
  deriving DecidableEq, Repr

/-- `Deserializer::deserialize_long`: `try_convert_to!(object, Fixnum)` then
`to_i64`. -/
def Deserializer.deserialize_long (d : Deserializer) : Result Int :=
  tryConvertFixnumCtx d.object

/-- `Deserializer::deserialize_float`: a native `Float`, or a fallback through
the integer path coerced `as f64`; failures get a
`When deserializing '<class>' as Float` context. -/
def Deserializer.deserialize_float (d : Deserializer) : Result Rat :=
  resultChainContext
    (match d.object with
     | .float q => .ok q
     | _ => (d.deserialize_long).map (fun n => (n : Rat)))
    ("When deserializing " ++ quoted (classNameOf d.object) ++ " as Float")

/-- `deserialize_bool`: `try_convert_to!(object, Boolean)`, then
`visit_bool`. -/
def Deserializer.deserialize_bool (d : Deserializer) : Result VisitCall :=
  (tryConvertBooleanCtx d.object).map VisitCall.vbool

/-- `deserialize_i32`: converts through `Fixnum::to_i64` and calls
`visit_i64` with the full 64-bit value. -/
def Deserializer.deserialize_i32 (d : Deserializer) : Result VisitCall :=
  (tryConvertFixnumCtx d.object).map VisitCall.vi64

/-- `deserialize_i8` delegates to `deserialize_i32`. -/
def Deserializer.deserialize_i8 (d : Deserializer) : Result VisitCall :=
  d.deserialize_i32

/-- `deserialize_i16` delegates to `deserialize_i32`. -/
def Deserializer.deserialize_i16 (d : Deserializer) : Result VisitCall :=
  d.deserialize_i32

/-- `deserialize_i64`: `deserialize_long` then `visit_i64`. -/
def Deserializer.deserialize_i64 (d : Deserializer) : Result VisitCall :=
  (d.deserialize_long).map VisitCall.vi64

/-- `deserialize_u32`: `Fixnum::to_i64`, cast `as u32`, then `visit_u32`. -/
def Deserializer.deserialize_u32 (d : Deserializer) : Result VisitCall :=
  (tryConvertFixnumCtx d.object).map (fun o => VisitCall.vu32 (i64AsU32 o))

/-- `deserialize_u8` delegates to `deserialize_u32`. -/
def Deserializer.deserialize_u8 (d : Deserializer) : Result VisitCall :=
  d.deserialize_u32

/-- `deserialize_u16` delegates to `deserialize_u32`. -/
def Deserializer.deserialize_u16 (d : Deserializer) : Result VisitCall :=
  d.deserialize_u32

/-- `deserialize_u64`: `deserialize_long`, cast `as u64`, then `visit_u64`. -/
def Deserializer.deserialize_u64 (d : Deserializer) : Result VisitCall :=
  (d.deserialize_long).map (fun n => VisitCall.vu64 (i64AsU64 n))

/-- `deserialize_f64`: `deserialize_float` then `visit_f64`. -/
def Deserializer.deserialize_f64 (d : Deserializer) : Result VisitCall :=
  (d.deserialize_float).map VisitCall.vf64

/-- `deserialize_f32` delegates to `deserialize_f64`. -/
def Deserializer.deserialize_f32 (d : Deserializer) : Result VisitCall :=
  d.deserialize_f64

/-- `deserialize_string`: `to_s` on the object, converted to `RString`, then
`visit_string`. -/
def Deserializer.deserialize_string (d : Deserializer) : Result VisitCall := do
  let so ← rubySend d.object "to_s" []
  let s ← tryConvertRString so
  return VisitCall.vstring s

/-- `deserialize_str` delegates to `deserialize_string`. -/
def Deserializer.deserialize_str (d : Deserializer) : Result VisitCall :=
  d.deserialize_string

/-- `deserialize_char` delegates to `deserialize_string`. -/
def Deserializer.deserialize_char (d : Deserializer) : Result VisitCall :=
  d.deserialize_string

/-- `SeqAccess` (src/de.rs): the sequence cursor, holding the array object,
the current position and the cached length. -/
structure SeqAccess where
  arr : RValue
  pos : Nat
  len : Nat

/-- `SeqAccess::new`: queries the host object for `length`, converts it to a
`Fixnum`, and starts at position 0.  The Rust `as usize` on the length is
modelled by `Int.toNat` (host lengths are non-negative). -/
def SeqAccess.new (arr : RValue) : Result SeqAccess :=
  match rubySend arr "length" [] with
  | .error e => .error e
  | .ok lenObj =>
    match tryConvertFixnum lenObj with
    | .error e => .error e
    | .ok len => .ok ⟨arr, 0, len.toNat⟩

/-- `SeqAccess::next_element_seed`: `None` once the position reaches the
cached length; otherwise fetches element `pos` by indexed dispatch (`[]`),
advances the position, and hands the element object to the seed (the
recursive decode happens in the seed, outside this cursor). -/
def SeqAccess.nextElement (s : SeqAccess) : Result (Option (RValue × SeqAccess)) :=
  if s.pos = s.len then .ok none
  else
    match rubySend s.arr "[]" [.fixnum (s.pos : Int)] with
    | .error e => .error e
    | .ok element => .ok (some (element, { s with pos := s.pos + 1 }))

/-- `SeqAccess::size_hint`. -/
def SeqAccess.sizeHint (s : SeqAccess) : Option Nat := some (s.len - s.pos)

/-- `HashAccess` (src/de.rs): the generic-map cursor, holding the parent
deserializer, the enumerated key list, the key being processed, the current
position and the cached length. -/
structure HashAccess where
  de : Deserializer
  keys : List RValue
  current_key : RValue
  pos : Nat
  len : Nat

/-- `HashAccess::new`: enumerates the hash keys, caches their count as the
length, starts at position 0 with a nil current key. -/
def HashAccess.new (de : Deserializer) : Result HashAccess :=
  match rubySend de.object "keys" [] with
  | .error e => .error e
  | .ok keysObj =>
    match tryConvertArray keysObj with
    | .error e => .error e
    | .ok keys => .ok ⟨de, keys, RValue.nil, 0, keys.length⟩

/-- `HashAccess::next_key_seed`: `None` once position reaches length;
otherwise records `keys.at(pos)` as the current key and hands that key object
to the seed.  The position is not advanced here.  `Array#at` out of range
yields nil. -/
def HashAccess.nextKey (s : HashAccess) : Result (Option (RValue × HashAccess)) :=
  if s.pos = s.len then .ok none
  else
    let k := s.keys.getD s.pos RValue.nil
    .ok (some (k, { s with current_key := k }))

/-- `HashAccess::next_value_seed`: fetches the value for the current key by a
`fetch` dispatch (raising if absent), wraps a failure with a
`While deserializing <key>` context, then advances the position and hands the
value object to the seed. -/
def HashAccess.nextValue (s : HashAccess) : Result (RValue × HashAccess) :=
  match resultChainContext (rubySend s.de.object "fetch" [s.current_key])
      ("While deserializing " ++ rubyInspect s.current_key) with
  | .error e => .error e
  | .ok field_object => .ok (field_object, { s with pos := s.pos + 1 })

/-- `HashAccess::size_hint`. -/
def HashAccess.sizeHint (s : HashAccess) : Option Nat := some (s.len - s.pos)

/-- `ObjectAccess` (src/de.rs): the struct-as-object cursor, holding the
parent deserializer, the declared field-name list and the current position. -/
structure ObjectAccess where
  de : Deserializer
  fields : List String
  pos : Nat

/-- `ObjectAccess::new`: starts at position 0. -/
def ObjectAccess.new (de : Deserializer) (fields : List String) : ObjectAccess :=
  ⟨de, fields, 0⟩

/-- `ObjectAccess::next_key_seed`: `None` once position reaches the field
count; otherwise reads `fields[pos]` (a Rust slice index, which panics when
out of bounds) and hands the field name to the seed.  The position is not
advanced here. -/
def ObjectAccess.nextKey (s : ObjectAccess) : ROut (Option String) :=
  if s.pos = s.fields.length then .ok none
  else if h : s.pos < s.fields.length then .ok (some (s.fields.get ⟨s.pos, h⟩))
  else .panic "index out of bounds"

/-- `ObjectAccess::next_value_seed`: reads `fields[pos]` with **no bounds
check** (a Rust slice index: out of bounds is a panic, not an error), invokes
that accessor method on the host object, wraps a dispatch failure with a
`While deserializing "<field>"` context, advances the position and hands the
result to the seed. -/
def ObjectAccess.nextValue (s : ObjectAccess) : ROut (RValue × ObjectAccess) :=
  if h : s.pos < s.fields.length then
    match resultChainContext (s.de.protect_send (s.fields.get ⟨s.pos, h⟩) [])
        ("While deserializing " ++ "\"" ++ s.fields.get ⟨s.pos, h⟩ ++ "\"") with
    | .error e => .err e
    | .ok field_object => .ok (field_object, { s with pos := s.pos + 1 })
  else .panic "index out of bounds"

/-- `Deserializer::deserialize_seq`: builds a `SeqAccess` cursor over the
object and drives the visitor with it (`visit_seq`). -/
def Deserializer.deserialize_seq (d : Deserializer) : Result SeqAccess :=
  SeqAccess.new d.object

/-- `Deserializer::deserialize_tuple`: identical to `deserialize_seq`; the
requested tuple arity is ignored. -/
def Deserializer.deserialize_tuple (d : Deserializer) (len : Nat) : Result SeqAccess :=
  SeqAccess.new d.object

/-- `Deserializer::deserialize_tuple_struct`: unconditionally a
`NotImplemented` error — the sequence mechanism is *not* used. -/
def Deserializer.deserialize_tuple_struct (d : Deserializer) (name : String)
    (len : Nat) : Result SeqAccess :=
  .error (Error.ofKind (.NotImplemented "Deserializer::deserialize_tuple_struct"))

/-- `Deserializer::deserialize_map`: drives the visitor with a `HashAccess`
cursor. -/
def Deserializer.deserialize_map (d : Deserializer) : Result HashAccess :=
  HashAccess.new d

/-- The cursor `deserialize_struct` hands to `visit_map`: either the generic
map cursor or the struct-as-object cursor. -/
inductive StructMode where
  | hashMode : HashAccess → StructMode
  | objectMode : ObjectAccess → StructMode

/-- `Deserializer::deserialize_struct`: the dual-mode branch.  The Rust code
sends `is_a?(Hash)`; the model tests the runtime class name (subclassing is
not modelled). -/
def Deserializer.deserialize_struct (d : Deserializer) (name : String)
    (fields : List String) : Result StructMode :=
  if classNameOf d.object = "Hash" then (HashAccess.new d).map StructMode.hashMode
  else .ok (StructMode.objectMode (ObjectAccess.new d fields))

/-- `EnumAccess` (src/de.rs): wraps the enum host object. -/
structure EnumAccess where
  object : RValue

/-- `Deserializer::deserialize_enum`: drives the visitor with an
`EnumAccess` over the object (`visit_enum`). -/
def Deserializer.deserialize_enum (d : Deserializer) (name : String)
    (variants : List String) : EnumAccess :=
  ⟨d.object⟩

/-- `EnumAccess::variant_seed`: a `Hash` object is treated as externally
tagged — the tag is the stringified first key and the payload the first
value; any other object is treated as a unit-variant tag — its own
stringification, with the object itself as payload.  Returns the pair handed
to the seed and to `VariantAccess`. -/
def EnumAccess.variant_seed (ea : EnumAccess) : Result (String × RValue) :=
  match classNameOf ea.object with
  | "Hash" => do
    let keysObj ← rubySend ea.object "keys" []
    let firstKey ← rubySend keysObj "first" []
    let nameObj ← rubySend firstKey "to_s" []
    let variant_name ← tryConvertRStringCtx nameObj
    let valuesObj ← rubySend ea.object "values" []
    let variant_content ← rubySend valuesObj "first" []
    return (variant_name, variant_content)
  | _ => do
    let sObj ← rubySend ea.object "to_s" []
    let variant_name ← tryConvertRString sObj
    return (variant_name, ea.object)

/-- `VariantAccess` (src/de.rs): wraps the variant payload object. -/
structure VariantAccess where
  object : RValue

/-- `VariantAccess::unit_variant`: always succeeds. -/
def VariantAccess.unit_variant (va : VariantAccess) : Result Unit := .ok ()

/-- `VariantAccess::newtype_variant_seed`: the seed decodes through a fresh
deserializer over the payload object. -/
def VariantAccess.newtype_variant_seed (va : VariantAccess) : Deserializer :=
  Deserializer.new va.object

/-- `VariantAccess::tuple_variant`: a `NotImplemented` error. -/
def VariantAccess.tuple_variant (va : VariantAccess) (len : Nat) : Result Unit :=
  .error (Error.ofKind (.NotImplemented "VariantAccess::tuple_variant"))

/-- `VariantAccess::struct_variant`: a `NotImplemented` error. -/
def VariantAccess.struct_variant (va : VariantAccess)
    (fields : List String) : Result Unit :=
  .error (Error.ofKind (.NotImplemented "VariantAccess::struct_variant"))

/-! ## Serializer (src/ser.rs)

The serializer is stateless; each `serialize_*` method returns
`Result<AnyObject>`.  Methods whose Rust signature takes a nested
serializable value (`value.serialize(self)?`) are modelled as taking the
`Result RValue` produced by that recursive serialization. -/

/-- `serialize_bool`: `Boolean::new`. -/
def Serializer.serialize_bool (v : Bool) : Result RValue := .ok (.bool v)

/-- `serialize_i64`: `Fixnum::new`. -/
def Serializer.serialize_i64 (v : Int) : Result RValue := .ok (.fixnum v)

/-- `serialize_i8`: widened losslessly (`i64::from`) to `serialize_i64`. -/
def Serializer.serialize_i8 (v : Int) : Result RValue := Serializer.serialize_i64 v

/-- `serialize_i16`: widened losslessly to `serialize_i64`. -/
def Serializer.serialize_i16 (v : Int) : Result RValue := Serializer.serialize_i64 v

/-- `serialize_i32`: widened losslessly to `serialize_i64`. -/
def Serializer.serialize_i32 (v : Int) : Result RValue := Serializer.serialize_i64 v

/-- `serialize_u8`: widened losslessly (`i64::from`) to `serialize_i64`. -/
def Serializer.serialize_u8 (v : Nat) : Result RValue := Serializer.serialize_i64 (v : Int)

/-- `serialize_u16`: widened losslessly to `serialize_i64`. -/
def Serializer.serialize_u16 (v : Nat) : Result RValue := Serializer.serialize_i64 (v : Int)

/-- `serialize_u32`: widened losslessly to `serialize_i64`. -/
def Serializer.serialize_u32 (v : Nat) : Result RValue := Serializer.serialize_i64 (v : Int)

/-- `serialize_u64`: reinterpreted `as i64` (lossy above the signed range),
then `serialize_i64`. -/
def Serializer.serialize_u64 (v : Nat) : Result RValue :=
  Serializer.serialize_i64 (u64AsI64 v)

/-- `serialize_f64`: `Float::new`. -/
def Serializer.serialize_f64 (v : Rat) : Result RValue := .ok (.float v)

/-- `serialize_f32`: widened (`f64::from`) to `serialize_f64`. -/
def Serializer.serialize_f32 (v : Rat) : Result RValue := Serializer.serialize_f64 v

/-- `serialize_str`: `RString::new_utf8`. -/
def Serializer.serialize_str (v : String) : Result RValue := .ok (.str v)

/-- `serialize_char`: a one-character string. -/
def Serializer.serialize_char (c : Char) : Result RValue :=
  Serializer.serialize_str (String.singleton c)

/-- `serialize_none`: the nil sentinel. -/
def Serializer.serialize_none : Result RValue := .ok .nil

/-- `serialize_unit` delegates to `serialize_none`. -/
def Serializer.serialize_unit : Result RValue := Serializer.serialize_none

/-- `serialize_unit_struct` delegates to `serialize_unit`. -/
def Serializer.serialize_unit_struct (name : String) : Result RValue :=
  Serializer.serialize_unit

/-- `serialize_unit_variant`: the variant name as a string. -/
def Serializer.serialize_unit_variant (name : String) (variant_index : Nat)
    (variant : String) : Result RValue :=
  Serializer.serialize_str variant

/-- `serialize_newtype_struct`: transparent — the serialized inner value. -/
def Serializer.serialize_newtype_struct (name : String)
    (inner : Result RValue) : Result RValue :=
  inner

/-- `serialize_newtype_variant`: a fresh hash with one entry, mapping the
variant name as a `Symbol` key to the serialized inner value. -/
def Serializer.serialize_newtype_variant (name : String) (variant_index : Nat)
    (variant : String) (inner : Result RValue) : Result RValue :=
  inner.map (fun v => .hash (hashStore [] (.sym variant) v))

/-- `SeqSerializer` (src/ser.rs): the array builder shared by sequences,
tuples and tuple structs. -/
structure SeqSerializer where
  array : List RValue

/-- `SeqSerializer::new`: an empty Ruby array. -/
def SeqSerializer.new : SeqSerializer := ⟨[]⟩

/-- `SerializeSeq::serialize_element` (also `SerializeTuple` and
`SerializeTupleStruct`): appends the serialized element. -/
def SeqSerializer.serialize_element (st : SeqSerializer)
    (vr : Result RValue) : Result SeqSerializer :=
  vr.map (fun v => ⟨st.array ++ [v]⟩)

/-- `SerializeSeq::end`: the built array. -/
def SeqSerializer.endSeq (st : SeqSerializer) : Result RValue :=
  .ok (.array st.array)

/-- `Serializer::serialize_seq`: a fresh array builder. -/
def Serializer.serialize_seq (len : Option Nat) : Result SeqSerializer :=
  .ok SeqSerializer.new

/-- `Serializer::serialize_tuple` delegates to `serialize_seq`. -/
def Serializer.serialize_tuple (len : Nat) : Result SeqSerializer :=
  Serializer.serialize_seq (some len)

/-- `Serializer::serialize_tuple_struct` delegates to `serialize_seq`. -/
def Serializer.serialize_tuple_struct (name : String) (len : Nat) : Result SeqSerializer :=
  Serializer.serialize_seq (some len)

/-- `TupleVariantSerializer` (src/ser.rs). -/
structure TupleVariantSerializer where
  object : RValue

/-- `TupleVariantSerializer::new`: `unimplemented!("TupleVariantSerializer::new")`
— a panic, not a returned error. -/
def TupleVariantSerializer.new : ROut TupleVariantSerializer :=
  .panic "not implemented: TupleVariantSerializer::new"

/-- `Serializer::serialize_tuple_variant`: constructing the builder panics. -/
def Serializer.serialize_tuple_variant (name : String) (variant_index : Nat)
    (variant : String) (len : Nat) : ROut TupleVariantSerializer :=
  TupleVariantSerializer.new

/-- `TupleStructSerializer` (src/ser.rs), the `SerializeStructVariant`
builder. -/
structure TupleStructSerializer where
  object : RValue

/-- `TupleStructSerializer::new`: `unimplemented!("TupleStructSerializer::new")`
— a panic, not a returned error. -/
def TupleStructSerializer.new : ROut TupleStructSerializer :=
  .panic "not implemented: TupleStructSerializer::new"

/-- `Serializer::serialize_struct_variant`: constructing the builder panics. -/
def Serializer.serialize_struct_variant (name : String) (variant_index : Nat)
    (variant : String) (len : Nat) : ROut TupleStructSerializer :=
  TupleStructSerializer.new

/-- `MapSerializer` (src/ser.rs): the hash builder with its cached key. -/
structure MapSerializer where
  hash : List (RValue × RValue)
  current_key : Option RValue

/-- `MapSerializer::new`: an empty hash, no cached key. -/
def MapSerializer.new : MapSerializer := ⟨[], none⟩

/-- `Serializer::serialize_map`: a fresh map builder. -/
def Serializer.serialize_map (len : Option Nat) : Result MapSerializer :=
  .ok MapSerializer.new

/-- `Serializer::serialize_struct` delegates to `serialize_map`. -/
def Serializer.serialize_struct (name : String) (len : Nat) : Result MapSerializer :=
  Serializer.serialize_map (some len)

/-- `SerializeMap::serialize_key`: caches the serialized key. -/
def MapSerializer.serialize_key (st : MapSerializer)
    (kr : Result RValue) : Result MapSerializer :=
  match kr with
  | .error e => .error e
  | .ok k => .ok { st with current_key := some k }

/-- `SerializeMap::serialize_value`: with a cached key, stores
`(cached_key, serialized_value)` into the hash (the cached key is *not*
cleared); with no cached key, fails with a `no key given` message error
before serializing the value. -/
def MapSerializer.serialize_value (st : MapSerializer)
    (vr : Result RValue) : Result MapSerializer :=
  match st.current_key with
  | some key =>
    match vr with
    | .error e => .error e
    | .ok v => .ok { st with hash := hashStore st.hash key v }
  | none => .error (Error.ofStr "no key given")

/-- `SerializeMap::end`: the built hash. -/
def MapSerializer.endMap (st : MapSerializer) : Result RValue :=
  .ok (.hash st.hash)

/-- `SerializeStruct::serialize_field`: stores the field name as a `Symbol`
key with the serialized value (bypassing the cached key entirely). -/
def MapSerializer.serialize_field (st : MapSerializer) (key : String)
    (vr : Result RValue) : Result MapSerializer :=
  vr.map (fun v => { st with hash := hashStore st.hash (.sym key) v })

/-! ## Protocol traces

Small step semantics used to state the cursor and map-builder invariants. -/

/-- One call in the `SerializeMap` protocol: a `serialize_key` or a
`serialize_value`, carrying the `Result` of serializing its argument. -/
inductive MapOp where
  | key : Result RValue → MapOp
  | value : Result RValue → MapOp

/-- Is this protocol call a `serialize_key` call? -/
def MapOp.isKeyOp : MapOp → Bool
  | .key _ => true
  | .value _ => false

/-- Performs one `SerializeMap` protocol call on a builder. -/
def MapOp.apply (op : MapOp) (st : MapSerializer) : Result MapSerializer :=
  match op with
  | .key kr => st.serialize_key kr
  | .value vr => st.serialize_value vr

/-- Runs a list of `SerializeMap` protocol calls, stopping at the first
error. -/
def runMapOps : MapSerializer → List MapOp → Result MapSerializer
  | st, [] => .ok st
  | st, op :: rest =>
    match op.apply st with
    | .error e => .error e
    | .ok st2 => runMapOps st2 rest

/-- One full entry step of a cursor: the sequence cursor's
`next_element_seed` lifted into panic-aware outcomes. -/
def seqStep (s : SeqAccess) : ROut (Option (RValue × SeqAccess)) :=
  liftR s.nextElement

/-- One full entry round of the generic-map cursor: `next_key_seed` followed,
when a key is produced, by `next_value_seed`. -/
def hashStep (s : HashAccess) : ROut (Option ((RValue × RValue) × HashAccess)) :=
  match s.nextKey with
  | .error e => .err e
  | .ok none => .ok none
  | .ok (some (k, s1)) =>
    match s1.nextValue with
    | .error e => .err e
    | .ok (v, s2) => .ok (some ((k, v), s2))

/-- One full entry round of the struct-as-object cursor: `next_key_seed`
followed, when a key is produced, by `next_value_seed`. -/
def objStep (s : ObjectAccess) : ROut (Option ((String × RValue) × ObjectAccess)) :=
  match s.nextKey with
  | .err e => .err e
  | .panic m => .panic m
  | .ok none => .ok none
  | .ok (some k) =>
    match s.nextValue with
    | .err e => .err e
    | .panic m => .panic m
    | .ok (v, s2) => .ok (some ((k, v), s2))

/-- The list of positions visited by `n` successful rounds of a cursor,
stopping at exhaustion, an error, or a panic. -/
def visitedIndices {σ α : Type} (step : σ → ROut (Option (α × σ)))
    (posOf : σ → Nat) (s : σ) : Nat → List Nat
  | 0 => []
  | n + 1 =>
    match step s with
    | .ok (some (_, s2)) => posOf s :: visitedIndices step posOf s2 n
    | _ => []

/-- Composition used to state round-trips: serialize, then hand the produced
host object to a fresh deserializer's decode method. -/
def encThenDec (enc : Result RValue) (dec : Deserializer → Result VisitCall) :
    Result VisitCall :=
  enc.bind (fun v => dec (Deserializer.new v))

/-- Decidable equality for `Except`, so that concrete (de)serializer results
can be compared by `decide`. -/
def exceptDecEq {ε α : Type} [DecidableEq ε] [DecidableEq α] :
    (a b : Except ε α) → Decidable (a = b)
  | .ok x, .ok y =>
    if h : x = y then .isTrue (by rw [h]) else .isFalse (fun he => h (Except.ok.inj he))
  | .error x, .error y =>
    if h : x = y then .isTrue (by rw [h]) else .isFalse (fun he => h (Except.error.inj he))
  | .ok x, .error y => .isFalse (fun he => Except.noConfusion he)
  | .error x, .ok y => .isFalse (fun he => Except.noConfusion he)

instance {ε α : Type} [DecidableEq ε] [DecidableEq α] : DecidableEq (Except ε α) :=
  exceptDecEq

/-- Modelled from the spec: the unsigned truncation to a requested narrower
width that the spec sentence asserts for integer decoding (`narrower
requested widths simply truncate/reinterpret after the 64-bit decode`).
Written from the spec's words, for comparison against the code. -/
def specTruncateUnsigned (bits : Nat) (n : Int) : Nat :=
  (n % ((2 : Int) ^ bits)).toNat

/-- Modelled from the spec: the signed two's-complement truncation to a
requested narrower width asserted by the same spec sentence. -/
def specTruncateSigned (bits : Nat) (n : Int) : Int :=
  ((n + (2 : Int) ^ (bits - 1)) % (2 : Int) ^ bits) - (2 : Int) ^ (bits - 1)

/-! ## Theorems -/

/-- Claim C1 (amended): deserializing a tuple-variant or a struct-variant of
an enum fails by returning an error of the `NotImplemented` kind, without
producing any value; attempting to *serialize* a tuple-variant or a
struct-variant, however, does not return an error at all — constructing the
builder panics via `unimplemented!` (a fatal stop handed to the surrounding
fault-isolation boundary), so no data is silently dropped on either side. -/
theorem c1_unimplemented_variants (va : VariantAccess) (len : Nat)
    (fields : List String) (name variant : String) (variant_index len2 : Nat) :
    va.tuple_variant len
      = .error (Error.ofKind (.NotImplemented "VariantAccess::tuple_variant"))
  ∧ va.struct_variant fields
      = .error (Error.ofKind (.NotImplemented "VariantAccess::struct_variant"))
  ∧ Serializer.serialize_tuple_variant name variant_index variant len2
      = ROut.panic "not implemented: TupleVariantSerializer::new"
  ∧ Serializer.serialize_struct_variant name variant_index variant len2
      = ROut.panic "not implemented: TupleStructSerializer::new" :=
  ⟨rfl, rfl, rfl, rfl⟩

/-- Counterexample to claim C1 as stated: serializing a tuple-variant (and a
struct-variant) does not fail by returning a `NotImplemented`-kind error — it
panics while constructing the builder. -/
theorem c1_serialize_variant_panics :
    (Serializer.serialize_tuple_variant "E" 0 "V" 2).isPanicB = true
  ∧ (Serializer.serialize_tuple_variant "E" 0 "V" 2).isErrB = false
  ∧ (Serializer.serialize_struct_variant "E" 0 "V" 2).isPanicB = true
  ∧ (Serializer.serialize_struct_variant "E" 0 "V" 2).isErrB = false :=
  ⟨rfl, rfl, rfl, rfl⟩

/-- Claim C2 (amended): deserializing a *tuple* uses the identical mechanism
as deserializing a sequence — build a `SeqAccess` over the host object (which
queries its length and then indexes from 0 upward), ignoring the requested
arity — but deserializing a *tuple-struct* does not: it unconditionally fails
with a `NotImplemented` error. -/
theorem c2_tuple_seq_mechanism (d : Deserializer) (len len2 : Nat)
    (name : String) (xs : List RValue) :
    d.deserialize_tuple len = d.deserialize_seq
  ∧ d.deserialize_seq = SeqAccess.new d.object
  ∧ SeqAccess.new (.array xs) = .ok ⟨.array xs, 0, xs.length⟩
  ∧ d.deserialize_tuple_struct name len2
      = .error (Error.ofKind (.NotImplemented "Deserializer::deserialize_tuple_struct")) := by
  refine ⟨rfl, rfl, ?_, rfl⟩
  simp [SeqAccess.new, rubySend, tryConvertFixnum]

/-- Counterexample to claim C2 as stated: on a 2-element host array,
`deserialize_tuple_struct` does not use the sequence mechanism — it returns a
`NotImplemented` error while `deserialize_tuple` succeeds with a cursor. -/
theorem c2_tuple_struct_diverges :
    resIsOk ((Deserializer.new (RValue.array [RValue.fixnum 1, RValue.fixnum 2])).deserialize_tuple_struct
        "Pair" 2) = false
  ∧ resErrKind ((Deserializer.new (RValue.array [RValue.fixnum 1, RValue.fixnum 2])).deserialize_tuple_struct
        "Pair" 2) = some (.NotImplemented "Deserializer::deserialize_tuple_struct")
  ∧ resIsOk ((Deserializer.new (RValue.array [RValue.fixnum 1, RValue.fixnum 2])).deserialize_tuple 2)
      = true :=
  ⟨rfl, rfl, rfl⟩

/-- Claim C4: serializing the newtype variant `Variant(5)` produces a
single-entry host hash mapping the symbol `:Variant` to the serialized
payload `5`; deserializing that hash reads back the tag `"Variant"` and the
payload object `5`, which decodes to `5` again.  Serializing the unit variant
`Other` produces the bare string `"Other"`, and deserializing that string
yields the tag `"Other"` with a succeeding unit-variant access. -/
theorem c4_enum_tagging_roundtrip :
    Serializer.serialize_newtype_variant "E" 0 "Variant" (Serializer.serialize_i64 5)
      = .ok (RValue.hash [(RValue.sym "Variant", RValue.fixnum 5)])
  ∧ EnumAccess.variant_seed ⟨RValue.hash [(RValue.sym "Variant", RValue.fixnum 5)]⟩
      = .ok ("Variant", RValue.fixnum 5)
  ∧ VariantAccess.newtype_variant_seed ⟨RValue.fixnum 5⟩ = Deserializer.new (RValue.fixnum 5)
  ∧ (Deserializer.new (RValue.fixnum 5)).deserialize_i64 = .ok (.vi64 5)
  ∧ Serializer.serialize_unit_variant "E" 1 "Other" = .ok (RValue.str "Other")
  ∧ EnumAccess.variant_seed ⟨RValue.str "Other"⟩ = .ok ("Other", RValue.str "Other")
  ∧ VariantAccess.unit_variant ⟨RValue.str "Other"⟩ = .ok () :=
  ⟨rfl, rfl, rfl, rfl, rfl, rfl, rfl⟩

/-- Claim C6: an error carries one kind plus a context list that
`chain_context` only ever appends to (the kind and the existing strings are
never replaced); `ResultExt::chain_context` leaves `Ok` untouched and appends
on `Err`; rendering shows the strings in exactly the order they were pushed,
and a nested conversion (`Fixnum` inside `Float`) pushes the innermost
context first, so it is shown first. -/
theorem c6_error_context_append_order {α : Type} (e : Error) (msg a b : String)
    (k : ErrorKind) (x : α) :
    (e.chain_context msg).kind = e.kind
  ∧ (e.chain_context msg).context = e.context ++ [msg]
  ∧ (((Error.ofKind k).chain_context a).chain_context b).context = [a, b]
  ∧ Error.describe_context ⟨k, [a, b]⟩
      = "\nContext from Rust:\n - " ++ (a ++ "\n - " ++ b)
  ∧ resultChainContext (Except.ok x : Result α) msg = .ok x
  ∧ resultChainContext (Except.error e : Result α) msg = .error (e.chain_context msg)
  ∧ (Deserializer.new (RValue.str "x")).deserialize_float
      = .error ⟨.RutieException "TypeError",
          ["When deserializing " ++ quoted "String" ++ " as Fixnum",
           "When deserializing " ++ quoted "String" ++ " as Float"]⟩ :=
  ⟨rfl, rfl, rfl, rfl, rfl, rfl, rfl⟩

/-- Claim C7 (amended): every integer deserialization first decodes the host
object through the single 64-bit representation (`deserialize_long`, i.e.
`Fixnum → i64`), and this crate performs no overflow or range check on it.
But the 64-bit value is *not* truncated to the requested width for every
width: the signed widths i8/i16/i32/i64 all forward the full 64-bit value to
`visit_i64` untouched, u8/u16/u32 all cast it `as u32` (truncation modulo
2^32, not to the requested width) for `visit_u32`, and u64 reinterprets it
`as u64` for `visit_u64`.  Concretely, 300 requested as i8 or u8 is delivered
as 300. -/
theorem c7_integer_decode_through_64bit (d : Deserializer) :
    d.deserialize_i8 = (d.deserialize_long).map VisitCall.vi64
  ∧ d.deserialize_i16 = (d.deserialize_long).map VisitCall.vi64
  ∧ d.deserialize_i32 = (d.deserialize_long).map VisitCall.vi64
  ∧ d.deserialize_i64 = (d.deserialize_long).map VisitCall.vi64
  ∧ d.deserialize_u8 = (d.deserialize_long).map (fun n => VisitCall.vu32 (i64AsU32 n))
  ∧ d.deserialize_u16 = (d.deserialize_long).map (fun n => VisitCall.vu32 (i64AsU32 n))
  ∧ d.deserialize_u32 = (d.deserialize_long).map (fun n => VisitCall.vu32 (i64AsU32 n))
  ∧ d.deserialize_u64 = (d.deserialize_long).map (fun n => VisitCall.vu64 (i64AsU64 n))
  ∧ (Deserializer.new (RValue.fixnum 300)).deserialize_i8 = .ok (.vi64 300)
  ∧ (Deserializer.new (RValue.fixnum 300)).deserialize_u8 = .ok (.vu32 300) :=
  ⟨rfl, rfl, rfl, rfl, rfl, rfl, rfl, rfl, rfl, rfl⟩

/-- Counterexample to claim C7 as stated: decoding the host integer 300 at
requested width u8 (resp. i8) does not deliver the value truncated to that
width (44) — the code delivers the undiminished 300. -/
theorem c7_no_truncation_to_width :
    ¬ ((Deserializer.new (RValue.fixnum 300)).deserialize_u8
        = Except.ok (VisitCall.vu32 (specTruncateUnsigned 8 300)))
  ∧ ¬ ((Deserializer.new (RValue.fixnum 300)).deserialize_i8
        = Except.ok (VisitCall.vi64 (specTruncateSigned 8 300))) := by
  decide

/-- Claim C8: `serialize_key` caches the serialized key; `serialize_value`
with a cached key stores the pair `(cached_key, serialized_value)` into the
hash being built; `serialize_value` with no cached key fails with the
`no key given` message error. -/
theorem c8_map_serializer_protocol (st : MapSerializer) (k v : RValue)
    (h : st.current_key = none) :
    st.serialize_key (.ok k) = .ok { st with current_key := some k }
  ∧ ({ st with current_key := some k } : MapSerializer).serialize_value (.ok v)
      = .ok ⟨hashStore st.hash k v, some k⟩
  ∧ st.serialize_value (.ok v) = .error (Error.ofStr "no key given") := by
  refine ⟨rfl, rfl, ?_⟩
  unfold MapSerializer.serialize_value
  rw [h]

/-- Witness for C8: the protocol on a fresh builder with key `"k"` and value
`1`, and the `no key given` failure on the fresh builder itself. -/
theorem c8_map_serializer_protocol_witness :
    MapSerializer.new.serialize_key (.ok (RValue.str "k"))
      = .ok ⟨[], some (RValue.str "k")⟩
  ∧ (⟨[], some (RValue.str "k")⟩ : MapSerializer).serialize_value (.ok (RValue.fixnum 1))
      = .ok ⟨[(RValue.str "k", RValue.fixnum 1)], some (RValue.str "k")⟩
  ∧ MapSerializer.new.serialize_value (.ok (RValue.fixnum 1))
      = .error (Error.ofStr "no key given") := by
  have h := c8_map_serializer_protocol MapSerializer.new (RValue.str "k") (RValue.fixnum 1) rfl
  exact ⟨h.1, h.2.1, h.2.2⟩

/-! ### Cursor step lemmas (shared by the invariant claims) -/

/-- A successful `next_element_seed` advances the sequence cursor by exactly
one position, keeps the cached length, and can only happen before
exhaustion. -/
theorem nextElement_ok_some (s : SeqAccess) (x : RValue) (s2 : SeqAccess)
    (h : s.nextElement = .ok (some (x, s2))) :
    s2.pos = s.pos + 1 ∧ s2.len = s.len ∧ s.pos ≠ s.len := by
  unfold SeqAccess.nextElement at h
  by_cases hp : s.pos = s.len
  · rw [if_pos hp] at h; exact absurd h (by simp)
  · rw [if_neg hp] at h
    cases hr : rubySend s.arr "[]" [.fixnum (s.pos : Int)] with
    | error e => rw [hr] at h; exact absurd h (by simp)
    | ok el =>
      rw [hr] at h
      simp at h
      obtain ⟨-, h2⟩ := h
      subst h2
      exact ⟨rfl, rfl, hp⟩

/-- A successful `next_key_seed` on the generic-map cursor leaves position
and cached length unchanged. -/
theorem hash_nextKey_ok_some (s : HashAccess) (k : RValue) (s1 : HashAccess)
    (h : s.nextKey = .ok (some (k, s1))) :
    s1.pos = s.pos ∧ s1.len = s.len := by
  unfold HashAccess.nextKey at h
  by_cases hp : s.pos = s.len
  · rw [if_pos hp] at h; exact absurd h (by simp)
  · rw [if_neg hp] at h
    simp at h
    obtain ⟨-, h2⟩ := h
    subst h2
    exact ⟨rfl, rfl⟩

/-- A successful `next_value_seed` on the generic-map cursor advances the
position by exactly one and keeps the cached length. -/
theorem hash_nextValue_ok (s : HashAccess) (v : RValue) (s2 : HashAccess)
    (h : s.nextValue = .ok (v, s2)) :
    s2.pos = s.pos + 1 ∧ s2.len = s.len := by
  unfold HashAccess.nextValue at h
  cases hr : resultChainContext (rubySend s.de.object "fetch" [s.current_key])
      ("While deserializing " ++ rubyInspect s.current_key) with
  | error e => rw [hr] at h; exact absurd h (by simp)
  | ok fo =>
    rw [hr] at h
    simp at h
    obtain ⟨-, h2⟩ := h
    subst h2
    exact ⟨rfl, rfl⟩

/-- A successful `next_value_seed` on the struct-as-object cursor advances
the position by exactly one, keeps the field list, and requires the position
to have been in bounds. -/
theorem obj_nextValue_ok (s : ObjectAccess) (v : RValue) (s2 : ObjectAccess)
    (h : s.nextValue = ROut.ok (v, s2)) :
    s2.pos = s.pos + 1 ∧ s2.fields = s.fields ∧ s.pos < s.fields.length := by
  unfold ObjectAccess.nextValue at h
  by_cases hlt : s.pos < s.fields.length
  · rw [dif_pos hlt] at h
    cases hr : resultChainContext (s.de.protect_send (s.fields.get ⟨s.pos, hlt⟩) [])
        ("While deserializing " ++ "\"" ++ s.fields.get ⟨s.pos, hlt⟩ ++ "\"") with
    | error e => rw [hr] at h; exact absurd h (by cases h)
    | ok fo =>
      rw [hr] at h
      cases h
      exact ⟨rfl, rfl, hlt⟩
  · rw [dif_neg hlt] at h
    exact absurd h (by cases h)

/-- A successful sequence-cursor round advances the position by one. -/
theorem seqStep_ok_some (s : SeqAccess) (x : RValue) (s2 : SeqAccess)
    (h : seqStep s = .ok (some (x, s2))) : s2.pos = s.pos + 1 := by
  unfold seqStep at h
  cases he : s.nextElement with
  | error e => rw [he] at h; exact absurd h (by simp [liftR])
  | ok o =>
    rw [he] at h
    simp [liftR] at h
    subst h
    exact (nextElement_ok_some s x s2 he).1

/-- A successful generic-map-cursor round (key then value) advances the
position by one. -/
theorem hashStep_ok_some (s : HashAccess) (kv : RValue × RValue) (s2 : HashAccess)
    (h : hashStep s = .ok (some (kv, s2))) : s2.pos = s.pos + 1 := by
  unfold hashStep at h
  split at h
  · exact absurd h (by simp)
  · exact absurd h (by simp)
  · rename_i k s1 hk
    split at h
    · exact absurd h (by simp)
    · rename_i v s2x hv
      cases h
      have h1 := (hash_nextKey_ok_some s k s1 hk).1
      have h2 := (hash_nextValue_ok s1 v _ hv).1
      omega

/-- A successful struct-as-object-cursor round advances the position by
one. -/
theorem objStep_ok_some (s : ObjectAccess) (kv : String × RValue) (s2 : ObjectAccess)
    (h : objStep s = .ok (some (kv, s2))) : s2.pos = s.pos + 1 := by
  unfold objStep at h
  split at h
  · exact absurd h (by simp)
  · exact absurd h (by simp)
  · exact absurd h (by simp)
  · rename_i k hk
    split at h
    · exact absurd h (by simp)
    · exact absurd h (by simp)
    · rename_i v s2x hv
      cases h
      exact (obj_nextValue_ok s v _ hv).1

/-- Every index visited by a cursor whose successful rounds increment the
position is at least the starting position. -/
theorem visitedIndices_lower_bound {σ α : Type} (step : σ → ROut (Option (α × σ)))
    (posOf : σ → Nat)
    (hstep : ∀ s a s2, step s = .ok (some (a, s2)) → posOf s2 = posOf s + 1) :
    ∀ (n : Nat) (s : σ) (i : Nat), i ∈ visitedIndices step posOf s n → posOf s ≤ i := by
  intro n
  induction n with
  | zero => intro s i hi; simp [visitedIndices] at hi
  | succ n ih =>
    intro s i hi
    unfold visitedIndices at hi
    cases h : step s with
    | ok o =>
      cases o with
      | none => rw [h] at hi; simp at hi
      | some p =>
        obtain ⟨a, s2⟩ := p
        rw [h] at hi
        simp at hi
        rcases hi with hi | hi
        · omega
        · have h1 := ih s2 i hi
          have h2 := hstep s a s2 h
          omega
    | err e => rw [h] at hi; simp at hi
    | panic m => rw [h] at hi; simp at hi

/-- A cursor whose successful rounds increment the position never visits the
same index twice. -/
theorem visitedIndices_nodup {σ α : Type} (step : σ → ROut (Option (α × σ)))
    (posOf : σ → Nat)
    (hstep : ∀ s a s2, step s = .ok (some (a, s2)) → posOf s2 = posOf s + 1) :
    ∀ (n : Nat) (s : σ), (visitedIndices step posOf s n).Nodup := by
  intro n
  induction n with
  | zero => intro s; simp [visitedIndices]
  | succ n ih =>
    intro s
    unfold visitedIndices
    cases h : step s with
    | ok o =>
      cases o with
      | none => simp
      | some p =>
        obtain ⟨a, s2⟩ := p
        refine List.nodup_cons.mpr ⟨?_, ih s2⟩
        intro hmem
        have h1 := visitedIndices_lower_bound step posOf hstep n s2 _ hmem
        have h2 := hstep s a s2 h
        omega
    | err e => simp
    | panic m => simp

/-- A freshly built sequence cursor starts at position 0. -/
theorem seqAccess_new_pos (v : RValue) (s : SeqAccess)
    (h : SeqAccess.new v = .ok s) : s.pos = 0 := by
  unfold SeqAccess.new at h
  split at h
  · exact absurd h (by simp)
  · split at h
    · exact absurd h (by simp)
    · cases h; rfl

/-- A freshly built generic-map cursor starts at position 0 with the key
count cached as its length. -/
theorem hashAccess_new_pos (de : Deserializer) (s : HashAccess)
    (h : HashAccess.new de = .ok s) : s.pos = 0 ∧ s.len = s.keys.length := by
  unfold HashAccess.new at h
  split at h
  · exact absurd h (by simp)
  · split at h
    · exact absurd h (by simp)
    · cases h; exact ⟨rfl, rfl⟩

/-- Claim C5: every access cursor (sequence, generic map, struct-as-object)
starts at position 0, its position is monotonically non-decreasing and
bounded by the cached length, a cursor whose position equals its length
reports `no more entries` (`Ok(None)`, not an error) on the next-entry
request — and, the state being unchanged, on every further request — and no
index is ever visited twice along any run of rounds. -/
theorem c5_cursor_invariants :
    (∀ v s, SeqAccess.new v = .ok s → s.pos = 0)
  ∧ (∀ s x s2, SeqAccess.nextElement s = .ok (some (x, s2)) →
        s.pos ≤ s2.pos ∧ s2.pos = s.pos + 1 ∧ (s.pos ≤ s.len → s2.pos ≤ s2.len))
  ∧ (∀ s : SeqAccess, s.pos = s.len → s.nextElement = .ok none)
  ∧ (∀ (s : SeqAccess) (n : Nat), (visitedIndices seqStep SeqAccess.pos s n).Nodup)
  ∧ (∀ de hs, HashAccess.new de = .ok hs → hs.pos = 0 ∧ hs.len = hs.keys.length)
  ∧ (∀ s k s1, HashAccess.nextKey s = .ok (some (k, s1)) → s1.pos = s.pos ∧ s1.len = s.len)
  ∧ (∀ s v s2, HashAccess.nextValue s = .ok (v, s2) →
        s.pos ≤ s2.pos ∧ s2.pos = s.pos + 1 ∧ (s.pos < s.len → s2.pos ≤ s2.len))
  ∧ (∀ s : HashAccess, s.pos = s.len → s.nextKey = .ok none)
  ∧ (∀ (s : HashAccess) (n : Nat), (visitedIndices hashStep HashAccess.pos s n).Nodup)
  ∧ (∀ de fields, (ObjectAccess.new de fields).pos = 0)
  ∧ (∀ s : ObjectAccess, s.pos = s.fields.length → s.nextKey = ROut.ok none)
  ∧ (∀ s v s2, ObjectAccess.nextValue s = ROut.ok (v, s2) →
        s.pos ≤ s2.pos ∧ s2.pos = s.pos + 1 ∧ s2.pos ≤ s2.fields.length)
  ∧ (∀ (s : ObjectAccess) (n : Nat), (visitedIndices objStep ObjectAccess.pos s n).Nodup) := by
  refine ⟨seqAccess_new_pos, ?_, ?_, ?_, hashAccess_new_pos, ?_, ?_, ?_, ?_, ?_, ?_, ?_, ?_⟩
  · intro s x s2 h
    obtain ⟨h1, h2, h3⟩ := nextElement_ok_some s x s2 h
    refine ⟨by omega, h1, fun hb => by omega⟩
  · intro s hp
    unfold SeqAccess.nextElement
    rw [if_pos hp]
  · exact fun s n => visitedIndices_nodup seqStep SeqAccess.pos seqStep_ok_some n s
  · exact hash_nextKey_ok_some
  · intro s v s2 h
    obtain ⟨h1, h2⟩ := hash_nextValue_ok s v s2 h
    refine ⟨by omega, h1, fun hb => by omega⟩
  · intro s hp
    unfold HashAccess.nextKey
    rw [if_pos hp]
  · exact fun s n => visitedIndices_nodup hashStep HashAccess.pos hashStep_ok_some n s
  · intro de fields; rfl
  · intro s hp
    unfold ObjectAccess.nextKey
    rw [if_pos hp]
  · intro s v s2 h
    obtain ⟨h1, h2, h3⟩ := obj_nextValue_ok s v s2 h
    exact ⟨by omega, h1, by rw [h1, h2]; omega⟩
  · exact fun s n => visitedIndices_nodup objStep ObjectAccess.pos objStep_ok_some n s

/-- Witness for C5: exhausted concrete cursors of all three kinds report
`no more entries`. -/
theorem c5_cursor_invariants_witness :
    SeqAccess.nextElement ⟨RValue.array [RValue.fixnum 7], 1, 1⟩ = .ok none
  ∧ HashAccess.nextKey ⟨Deserializer.new (RValue.hash []), [], RValue.nil, 0, 0⟩ = .ok none
  ∧ ObjectAccess.nextKey ⟨Deserializer.new (RValue.obj "Foo" []), ["a"], 1⟩ = ROut.ok none := by
  obtain ⟨h1, h2, h3, h4, h5, h6, h7, h8, h9, h10, h11, h12, h13⟩ := c5_cursor_invariants
  exact ⟨h3 _ rfl, h8 _ rfl, h11 _ rfl⟩

/-- Claim C10: on an exhausted struct-as-object cursor (position equal to the
field-list length), `next_value_seed` indexes the field list out of bounds
and panics — it performs no bounds check and returns no error — while
`next_key_seed` at the same state returns `no more entries`. -/
theorem c10_object_access_unchecked_value (s : ObjectAccess)
    (h : s.pos = s.fields.length) :
    s.nextValue = ROut.panic "index out of bounds"
  ∧ s.nextKey = ROut.ok none := by
  constructor
  · unfold ObjectAccess.nextValue
    rw [dif_neg (by omega)]
  · unfold ObjectAccess.nextKey
    rw [if_pos h]

/-- Witness for C10: a concrete one-field cursor at position 1. -/
theorem c10_object_access_unchecked_value_witness :
    ObjectAccess.nextValue ⟨Deserializer.new (RValue.obj "Point" [("x", RValue.fixnum 1)]), ["x"], 1⟩
      = ROut.panic "index out of bounds"
  ∧ ObjectAccess.nextKey ⟨Deserializer.new (RValue.obj "Point" [("x", RValue.fixnum 1)]), ["x"], 1⟩
      = ROut.ok none :=
  c10_object_access_unchecked_value _ rfl

/-! ### Map-builder trace lemmas (for the cached-key claims) -/

/-- A successful `serialize_value` preserves a cached key. -/
theorem serialize_value_ok_some (st : MapSerializer) (k : RValue) (vr : Result RValue)
    (st2 : MapSerializer) (hk : st.current_key = some k)
    (h : st.serialize_value vr = .ok st2) : st2.current_key = some k := by
  unfold MapSerializer.serialize_value at h
  rw [hk] at h
  cases vr with
  | error e => exact absurd h (by simp)
  | ok v => cases h; rfl

/-- Once some key is cached, any successful run of further protocol calls
ends with some key still cached. -/
theorem runMapOps_preserves_some :
    ∀ (ops : List MapOp) (st st2 : MapSerializer) (k : RValue),
      st.current_key = some k → runMapOps st ops = .ok st2 →
      ∃ k2, st2.current_key = some k2 := by
  intro ops
  induction ops with
  | nil => intro st st2 k hk h; cases h; exact ⟨k, hk⟩
  | cons op rest ih =>
    intro st st2 k hk h
    unfold runMapOps at h
    split at h
    · exact absurd h (by simp)
    · rename_i st1 hst1
      cases op with
      | key kr =>
        cases kr with
        | error e =>
          have hbad : (Except.error e : Result MapSerializer) = .ok st1 := hst1
          exact absurd hbad (by simp)
        | ok k1 =>
          have hst1x : st.serialize_key (.ok k1) = Except.ok st1 := hst1
          have hck : st1.current_key = some k1 := by
            unfold MapSerializer.serialize_key at hst1x
            cases hst1x; rfl
          exact ih st1 st2 k1 hck h
      | value vr =>
        have hst1x : st.serialize_value vr = Except.ok st1 := hst1
        have hck := serialize_value_ok_some st k vr st1 hk hst1x
        exact ih st1 st2 k hck h

/-- A successful run containing at least one `serialize_key` call ends with
some key cached. -/
theorem runMapOps_key_gives_some :
    ∀ (ops : List MapOp) (st st2 : MapSerializer),
      runMapOps st ops = .ok st2 → (∃ op ∈ ops, op.isKeyOp = true) →
      ∃ k2, st2.current_key = some k2 := by
  intro ops
  induction ops with
  | nil => intro st st2 h hex; simp at hex
  | cons op rest ih =>
    intro st st2 h hex
    unfold runMapOps at h
    split at h
    · exact absurd h (by simp)
    · rename_i st1 hst1
      cases op with
      | key kr =>
        cases kr with
        | error e =>
          have hbad : (Except.error e : Result MapSerializer) = .ok st1 := hst1
          exact absurd hbad (by simp)
        | ok k1 =>
          have hst1x : st.serialize_key (.ok k1) = Except.ok st1 := hst1
          have hck : st1.current_key = some k1 := by
            unfold MapSerializer.serialize_key at hst1x
            cases hst1x; rfl
          exact runMapOps_preserves_some rest st1 st2 k1 hck h
      | value vr =>
        rcases hex with ⟨op2, hop2, hkey⟩
        rcases List.mem_cons.mp hop2 with rfl | hop2
        · simp [MapOp.isKeyOp] at hkey
        · exact ih st1 st2 h ⟨op2, hop2, hkey⟩

/-- Claim C9: the map builder never clears its cached key after use — a
`serialize_value` with a cached key succeeds (reusing the most recently
cached key) and leaves the key cached, the `no key given` error implies no
key was cached, and after any successful call sequence from a fresh builder
that contained at least one `serialize_key` call, every `serialize_value`
with a serializable value succeeds. -/
theorem c9_cached_key_reuse :
    (∀ (st : MapSerializer) (k v : RValue), st.current_key = some k →
        st.serialize_value (.ok v) = .ok { st with hash := hashStore st.hash k v }
      ∧ ({ st with hash := hashStore st.hash k v } : MapSerializer).current_key = some k)
  ∧ (∀ (st : MapSerializer) (v : RValue) (e : Error),
        st.serialize_value (.ok v) = .error e → st.current_key = none)
  ∧ (∀ (pre : List MapOp) (st2 : MapSerializer) (v : RValue),
        runMapOps MapSerializer.new pre = .ok st2 →
        (∃ op ∈ pre, op.isKeyOp = true) →
        ∃ st3, st2.serialize_value (.ok v) = .ok st3) := by
  refine ⟨?_, ?_, ?_⟩
  · intro st k v hk
    refine ⟨?_, hk⟩
    unfold MapSerializer.serialize_value
    rw [hk]
  · intro st v e h
    unfold MapSerializer.serialize_value at h
    cases hc : st.current_key with
    | none => rfl
    | some k => rw [hc] at h; exact absurd h (by simp)
  · intro pre st2 v hrun hex
    obtain ⟨k2, hk2⟩ := runMapOps_key_gives_some pre MapSerializer.new st2 hrun hex
    refine ⟨{ st2 with hash := hashStore st2.hash k2 v }, ?_⟩
    unfold MapSerializer.serialize_value
    rw [hk2]

/-- Witness for C9: a concrete builder with the symbol `:a` cached accepts a
value and keeps the key cached. -/
theorem c9_cached_key_reuse_witness :
    MapSerializer.serialize_value ⟨[], some (RValue.sym "a")⟩ (.ok (RValue.fixnum 2))
      = .ok ⟨[(RValue.sym "a", RValue.fixnum 2)], some (RValue.sym "a")⟩
  ∧ (⟨[(RValue.sym "a", RValue.fixnum 2)], some (RValue.sym "a")⟩ : MapSerializer).current_key
      = some (RValue.sym "a") := by
  have h := c9_cached_key_reuse.1 ⟨[], some (RValue.sym "a")⟩ (RValue.sym "a") (RValue.fixnum 2) rfl
  exact ⟨h.1, h.2⟩

/-- Claim C3: for every supported primitive value — a bool, any signed
integer width (its value in range), any unsigned width (its value in range,
and for u64 within the signed 64-bit range), an f64-representable float, a
UTF-8 string, or a char — decoding the host object produced by encoding the
value delivers exactly that value back to the visitor. -/
theorem c3_primitive_roundtrip (b : Bool) (i8v i16v i32v i64v : Int)
    (u8v u16v u32v u64v : Nat) (q : Rat) (s : String) (c : Char)
    (h8 : -128 ≤ i8v ∧ i8v < 128) (h16 : -32768 ≤ i16v ∧ i16v < 32768)
    (h32 : -2147483648 ≤ i32v ∧ i32v < 2147483648)
    (h64 : -9223372036854775808 ≤ i64v ∧ i64v < 9223372036854775808)
    (hu8 : u8v < 256) (hu16 : u16v < 65536) (hu32 : u32v < 4294967296)
    (hu64 : u64v < 9223372036854775808) :
    encThenDec (Serializer.serialize_bool b) Deserializer.deserialize_bool = .ok (.vbool b)
  ∧ encThenDec (Serializer.serialize_i8 i8v) Deserializer.deserialize_i8 = .ok (.vi64 i8v)
  ∧ encThenDec (Serializer.serialize_i16 i16v) Deserializer.deserialize_i16 = .ok (.vi64 i16v)
  ∧ encThenDec (Serializer.serialize_i32 i32v) Deserializer.deserialize_i32 = .ok (.vi64 i32v)
  ∧ encThenDec (Serializer.serialize_i64 i64v) Deserializer.deserialize_i64 = .ok (.vi64 i64v)
  ∧ encThenDec (Serializer.serialize_u8 u8v) Deserializer.deserialize_u8 = .ok (.vu32 u8v)
  ∧ encThenDec (Serializer.serialize_u16 u16v) Deserializer.deserialize_u16 = .ok (.vu32 u16v)
  ∧ encThenDec (Serializer.serialize_u32 u32v) Deserializer.deserialize_u32 = .ok (.vu32 u32v)
  ∧ encThenDec (Serializer.serialize_u64 u64v) Deserializer.deserialize_u64 = .ok (.vu64 u64v)
  ∧ encThenDec (Serializer.serialize_f64 q) Deserializer.deserialize_f64 = .ok (.vf64 q)
  ∧ encThenDec (Serializer.serialize_str s) Deserializer.deserialize_str = .ok (.vstring s)
  ∧ encThenDec (Serializer.serialize_char c) Deserializer.deserialize_char
      = .ok (.vstring (String.singleton c)) := by
  refine ⟨rfl, rfl, rfl, rfl, rfl, ?_, ?_, ?_, ?_, rfl, rfl, rfl⟩
  · show Except.ok (VisitCall.vu32 (i64AsU32 (u8v : Int))) = _
    have h : i64AsU32 (u8v : Int) = u8v := by unfold i64AsU32; omega
    rw [h]
  · show Except.ok (VisitCall.vu32 (i64AsU32 (u16v : Int))) = _
    have h : i64AsU32 (u16v : Int) = u16v := by unfold i64AsU32; omega
    rw [h]
  · show Except.ok (VisitCall.vu32 (i64AsU32 (u32v : Int))) = _
    have h : i64AsU32 (u32v : Int) = u32v := by unfold i64AsU32; omega
    rw [h]
  · show Except.ok (VisitCall.vu64 (i64AsU64 (u64AsI64 u64v))) = _
    have h : i64AsU64 (u64AsI64 u64v) = u64v := by
      unfold u64AsI64 i64AsU64
      rw [if_pos hu64]
      omega
    rw [h]

/-- Witness for C3: concrete in-range values of every primitive shape
round-trip. -/
theorem c3_primitive_roundtrip_witness :
    encThenDec (Serializer.serialize_bool true) Deserializer.deserialize_bool = .ok (.vbool true)
  ∧ encThenDec (Serializer.serialize_i8 (-5)) Deserializer.deserialize_i8 = .ok (.vi64 (-5))
  ∧ encThenDec (Serializer.serialize_i16 (-300)) Deserializer.deserialize_i16 = .ok (.vi64 (-300))
  ∧ encThenDec (Serializer.serialize_i32 70000) Deserializer.deserialize_i32 = .ok (.vi64 70000)
  ∧ encThenDec (Serializer.serialize_i64 (-9000000000)) Deserializer.deserialize_i64
      = .ok (.vi64 (-9000000000))
  ∧ encThenDec (Serializer.serialize_u8 200) Deserializer.deserialize_u8 = .ok (.vu32 200)
  ∧ encThenDec (Serializer.serialize_u16 60000) Deserializer.deserialize_u16 = .ok (.vu32 60000)
  ∧ encThenDec (Serializer.serialize_u32 4000000000) Deserializer.deserialize_u32
      = .ok (.vu32 4000000000)
  ∧ encThenDec (Serializer.serialize_u64 9000000000000000000) Deserializer.deserialize_u64
      = .ok (.vu64 9000000000000000000)
  ∧ encThenDec (Serializer.serialize_f64 7) Deserializer.deserialize_f64 = .ok (.vf64 7)
  ∧ encThenDec (Serializer.serialize_str "hi") Deserializer.deserialize_str = .ok (.vstring "hi")
  ∧ encThenDec (Serializer.serialize_char (Char.ofNat 122)) Deserializer.deserialize_char
      = .ok (.vstring (String.singleton (Char.ofNat 122))) :=
  c3_primitive_roundtrip true (-5) (-300) 70000 (-9000000000) 200 60000 4000000000
    9000000000000000000 7 "hi" (Char.ofNat 122)
    (by decide) (by decide) (by decide) (by decide) (by decide) (by decide) (by decide) (by decide)

end RutieSerde
